import Mathlib

/-!
Shallow embedding of `.github/workflows/rename_images.py`, the single script of
this repository.  Pure string manipulation (`sanitize_filename`,
`get_local_path_from_github_url`, the `os.path` helpers it calls) is translated
directly; the effectful driver code (`__main__`, `describe_and_rename_image`,
the Mineru poll loop) is embedded by making each external call's outcome an
explicit parameter and translating the control flow that dispatches on those
outcomes.  Python exceptions are modelled with `Except String`; Python
truthiness of optional strings (`if not x`) with `pyTruthy`.
-/

set_option maxRecDepth 2048

namespace RenameImages

/-- Python truthiness of an optional string: `None` and `""` are falsy,
every other string is truthy.  Models `if not x:` on `Optional[str]`. -/
def pyTruthy : Option String → Bool
  | none => false
  | some s => s != ""

/-- Models Python `s.startswith(pat)`. -/
def pyStartsWith (s pat : String) : Bool :=
  pat.data.isPrefixOf s.data

/-- Models Python `s.endswith(pat)`. -/
def pyEndsWith (s pat : String) : Bool :=
  pat.data.reverse.isPrefixOf s.data.reverse

/-- Left-to-right, non-overlapping replacement of `pat` by `rep`, as Python
`str.replace` for a nonempty pattern (the script only replaces the fixed
nonempty prefix `"https://github.com/"`).  The fuel argument is the scan
position budget and starts at the full string length. -/
def pyReplaceAux (pat rep : List Char) : Nat → List Char → List Char
  | 0, cs => cs
  | _ + 1, [] => []
  | fuel + 1, c :: cs =>
    if pat.isPrefixOf (c :: cs) then
      rep ++ pyReplaceAux pat rep fuel ((c :: cs).drop pat.length)
    else
      c :: pyReplaceAux pat rep fuel cs

/-- Models Python `s.replace(pat, rep)` for nonempty `pat`. -/
def pyReplace (s pat rep : String) : String :=
  String.mk (pyReplaceAux pat.data rep.data s.data.length s.data)

/-- Splitting on a nonempty separator, as Python `str.split(sep)`:
`"".split(sep) == [""]`, adjacent separators produce empty fields. -/
def pySplitAux (sep : List Char) : Nat → List Char → List (List Char)
  | 0, cs => [cs]
  | _ + 1, [] => [[]]
  | fuel + 1, c :: cs =>
    if sep.isPrefixOf (c :: cs) then
      [] :: pySplitAux sep fuel ((c :: cs).drop sep.length)
    else
      match pySplitAux sep fuel cs with
      | [] => [[c]]
      | h :: t => (c :: h) :: t

/-- Models Python `s.split(sep)` for nonempty `sep`. -/
def pySplit (s sep : String) : List String :=
  (pySplitAux sep.data s.data.length s.data).map String.mk

/-- Models Python `sep.join(parts)`. -/
def pyJoin (sep : String) (parts : List String) : String :=
  String.mk ((parts.map String.data).intersperse sep.data).flatten

/-- Models CPython `str.isalnum` on the character ranges this repository
exercises: ASCII letters and digits, plus the CJK Unified Ideographs block
(U+4E00..U+9FFF), all of whose characters are Unicode letters (category Lo)
and therefore alphanumeric in Python.  ASCII punctuation, whitespace and the
underscore are not alphanumeric. -/
def pyIsAlnum (c : Char) : Bool :=
  c.isAlphanum || (0x4E00 ≤ c.toNat && c.toNat ≤ 0x9FFF)

/-- `sanitize_filename` (rename_images.py line 141):
`"".join(c if c.isalnum() else "_" for c in filename)`. -/
def sanitize_filename (filename : String) : String :=
  String.mk (filename.data.map (fun c => if pyIsAlnum c then c else '_'))

/-- Index of the last occurrence of `c`, as `str.rfind` restricted to a
single character (used to model the `os.path` helpers). -/
def lastIdxOf (c : Char) : List Char → Option Nat
  | [] => none
  | x :: xs =>
    match lastIdxOf c xs with
    | some i => some (i + 1)
    | none => if x = c then some 0 else none

/-- Models `posixpath.basename`: everything after the last slash. -/
def os_path_basename (p : String) : String :=
  match lastIdxOf '/' p.data with
  | none => p
  | some i => String.mk (p.data.drop (i + 1))

/-- Models `posixpath.dirname`: everything up to the last slash, with
trailing slashes stripped unless the head is all slashes. -/
def os_path_dirname (p : String) : String :=
  match lastIdxOf '/' p.data with
  | none => ""
  | some i =>
    let head := p.data.take (i + 1)
    if head.all (fun c => c = '/') then String.mk head
    else String.mk ((head.reverse.dropWhile (fun c => c = '/')).reverse)

/-- Models `posixpath.splitext`: split at the last dot after the last slash,
unless every character between them is a dot (leading dots of the basename
are not extension separators). -/
def splitext (p : String) : String × String :=
  let cs := p.data
  match lastIdxOf '.' cs with
  | none => (p, "")
  | some d =>
    let s0 := match lastIdxOf '/' cs with
      | none => 0
      | some s => s + 1
    if d < s0 then (p, "")
    else if ((cs.drop s0).take (d - s0)).all (fun c => c = '.') then (p, "")
    else (String.mk (cs.take d), String.mk (cs.drop d))

/-- Models `posixpath.join` for two components. -/
def os_path_join (a b : String) : String :=
  if pyStartsWith b "/" then b
  else if a == "" || pyEndsWith a "/" then a ++ b
  else a ++ "/" ++ b

/-- The new-path construction of `describe_and_rename_image`
(rename_images.py lines 38-40): split the basename of `local_path` into stem
and extension, sanitize the summary, append the original extension, and join
with the original directory. -/
def build_new_path (local_path summary : String) : String :=
  let ext := (splitext (os_path_basename local_path)).2
  let new_filename := sanitize_filename summary ++ ext
  os_path_join (os_path_dirname local_path) new_filename

/-- `get_local_path_from_github_url` uses Python
`github_url.replace("https://github.com/", "").split("/")`. -/
def github_url_parts (github_url : String) : List String :=
  pySplit (pyReplace github_url "https://github.com/" "") "/"

/-- `get_local_path_from_github_url` (rename_images.py lines 143-154):
indexes `parts[0]`, `parts[1]`, `parts[3]` (an `IndexError` is caught and
yields `None`, modelled by `none`) and returns `"/".join(parts[4:])`.
`parts[0]` never fails since `split` returns a nonempty list, and
`parts[3]` failing implies `parts[1]` failing or not independently, so the
two lookups below cover exactly the raising subscripts. -/
def get_local_path_from_github_url (github_url : String) : Option String :=
  let parts := github_url_parts github_url
  match parts[1]?, parts[3]? with
  | some _, some _ => some (pyJoin "/" (parts.drop 4))
  | _, _ => none

/-! ### Startup configuration check (`__main__`, lines 160-167, 101-102, 218-219) -/

/-- The environment variables the script reads, each `none` when unset. -/
structure EnvConfig where
  github_token : Option String
  github_ref_name : Option String
  github_repository : Option String
  openai_api_key : Option String
  openai_api_base : Option String
  mineru_api_endpoint : Option String
  mineru_api_token : Option String

/-- The startup check (lines 165-167):
`if not all([github_token, release_name, github_repository]): exit(1)`.
Returns `true` exactly when the script exits with code 1 before reading the
event payload. -/
def startup_exits_1 (cfg : EnvConfig) : Bool :=
  !(pyTruthy cfg.github_token && pyTruthy cfg.github_ref_name &&
    pyTruthy cfg.github_repository)

/-- The API key `summarize_text_with_openai` actually uses (line 101):
`os.environ.get("OPENAI_API_KEY", "dummy_key")`. -/
def openai_key_used (cfg : EnvConfig) : String :=
  cfg.openai_api_key.getD "dummy_key"

/-- The base URL `summarize_text_with_openai` actually uses (line 102):
`os.environ.get("OPENAI_API_BASE", "https://free.v36.cm")`. -/
def openai_base_used (cfg : EnvConfig) : String :=
  cfg.openai_api_base.getD "https://free.v36.cm"

/-! ### Push-event changed-file collection (`__main__`, lines 176-178) -/

/-- JSON values as far as the event-payload navigation needs them. -/
inductive JsonVal where
  | str (s : String)
  | num (n : Int)
  | obj (fields : List (String × JsonVal))
  | arr (elems : List JsonVal)

/-- Python subscripting `v["k"]`: on a dict it is a key lookup
(`KeyError` when absent); on a string or a list a string key raises
`TypeError`. -/
def pySubscript : JsonVal → String → Except String JsonVal
  | .obj fields, k =>
    match fields.lookup k with
    | some v => .ok v
    | none => .error ("KeyError: " ++ k)
  | .str _, _ => .error "TypeError: string indices must be integers"
  | _, _ => .error "TypeError: indices must be integers"

/-- One commit of a push-event payload: the values of its `added` and
`modified` fields (GitHub delivers both as arrays of path strings). -/
structure PushCommit where
  added : List JsonVal
  modified : List JsonVal

/-- The inner list comprehension of line 178:
`[file["filename"] for file in commit.get("added", []) + commit.get("modified", [])
  if file["filename"].startswith("images/")]`.
An exception from `file["filename"]` (or from `.startswith` on a non-string)
propagates out of the comprehension. -/
def commit_files_178 : List JsonVal → Except String (List String)
  | [] => .ok []
  | f :: fs => do
    let v ← pySubscript f "filename"
    match v with
    | .str name =>
      let rest ← commit_files_178 fs
      .ok (if pyStartsWith name "images/" then name :: rest else rest)
    | _ => .error "AttributeError: no attribute startswith"

/-- The push-event branch of `__main__` (lines 176-178): start from an empty
`files` list and `files.extend(...)` the comprehension result for each
commit; an exception in any commit aborts the whole collection (there is no
`try` around this code). -/
def collect_push_files : List PushCommit → Except String (List String)
  | [] => .ok []
  | c :: cs => do
    let fs ← commit_files_178 (c.added ++ c.modified)
    let rest ← collect_push_files cs
    .ok (fs ++ rest)

/-! ### Mineru poll loop (`__main__`, lines 249-281) -/

/-- Outcome of one poll attempt, i.e. of
`requests.get(task_url); raise_for_status; task_res.json()` plus the
`data.state` / `data.full_zip_url` lookups: either a decoded response with
the optional `state` and `full_zip_url` fields, or one of the three caught
exception classes. -/
inductive PollAttempt where
  | response (state : Option String) (full_zip_url : Option String)
  | requestException (msg : String)
  | jsonDecodeError (msg : String)
  | otherException (msg : String)

/-- Whether a poll attempt raised instead of delivering a response. -/
def isPollError : PollAttempt → Bool
  | .response _ _ => false
  | _ => true

/-- What the poll loop leaves behind: the final `full_zip_url` variable, the
number of loop iterations entered, and the total seconds slept
(`time.sleep(retry_delay)` runs at the top of every iteration). -/
structure PollOutcome where
  full_zip_url : Option String
  attempts : Nat
  slept : Nat
deriving DecidableEq

/-- The poll loop body (lines 252-277), with the attempt outcomes supplied
as a sequence: iteration `i` sleeps `delay`, then inspects `resp i`;
`state == "done"` stores `full_zip_url` and breaks, `state == "failed"`
stores `None` and breaks, any other state continues, and any caught
exception breaks with `full_zip_url` still `None`. -/
def pollFrom (resp : Nat → PollAttempt) (delay : Nat) : Nat → Nat → PollOutcome
  | _, 0 => ⟨none, 0, 0⟩
  | i, n + 1 =>
    match resp i with
    | .response state url =>
      if state = some "done" then ⟨url, 1, delay⟩
      else if state = some "failed" then ⟨none, 1, delay⟩
      else
        let r := pollFrom resp delay (i + 1) n
        ⟨r.full_zip_url, r.attempts + 1, r.slept + delay⟩
    | _ => ⟨none, 1, delay⟩

/-- The poll loop as configured in the script: `max_retries = 20`,
`retry_delay = 5`, starting at attempt 0. -/
def poll_loop (resp : Nat → PollAttempt) : PollOutcome :=
  pollFrom resp 5 0 20

/-- The driver's check after the loop (line 279): `if not full_zip_url:`
skip the file (`continue`). -/
def driver_skips_file (full_zip_url : Option String) : Bool :=
  !(pyTruthy full_zip_url)

/-! ### Per-file driver control flow (`__main__`, lines 232-294) -/

/-- How one iteration of the per-file loop ends. -/
inductive FileOutcome where
  | skipped
  | committed
  | fatalExit1
deriving DecidableEq

/-- One iteration of the driver loop over image files, abstracted over the
outcomes of its external calls: `submit_ok` is whether the Mineru task POST
succeeded (lines 232-246: any exception means `continue`), `full_zip_url`
is what the poll loop produced (line 279: falsy means `continue`),
`rename_ok` is `describe_and_rename_image`'s return (line 292-294: `False`
means `exit(1)`), and `commit_push_ok` is whether `git commit; git push`
succeeded (lines 285-290: an exception means `exit(1)`). -/
def process_file (submit_ok : Bool) (full_zip_url : Option String)
    (rename_ok : Bool) (commit_push_ok : Bool) : FileOutcome :=
  if !submit_ok then .skipped
  else if driver_skips_file full_zip_url then .skipped
  else if rename_ok then
    (if commit_push_ok then .committed else .fatalExit1)
  else .fatalExit1

/-! ### `describe_and_rename_image` (lines 14-52) -/

/-- The `try` body of `describe_and_rename_image`, abstracted over the
outcomes of its effectful calls: `zip_get` is
`requests.get(zip_file_url); raise_for_status` (lines 20-21, may raise),
`markdown_content` is `extract_markdown_and_upload_to_release`'s return
(line 23, catches its own exceptions and returns `None`), `summary` is
`summarize_text_with_openai`'s return (line 28, same), `local_path` is
`get_local_path_from_github_url`'s return (line 33, same), and `git_mv` is
`repo.git.mv(local_path, new_path)` (line 43, may raise).  Falsy
intermediate values return `False` early (lines 24-36). -/
def describe_body (zip_get : Except String Unit)
    (markdown_content summary local_path : Option String)
    (git_mv : Except String Unit) : Except String Bool :=
  match zip_get with
  | .error e => .error e
  | .ok _ =>
    if !(pyTruthy markdown_content) then .ok false
    else if !(pyTruthy summary) then .ok false
    else if !(pyTruthy local_path) then .ok false
    else
      match git_mv with
      | .error e => .error e
      | .ok _ => .ok true

/-- `describe_and_rename_image`'s public behaviour: the `try` body wrapped
in the two `except` clauses (lines 47-52), both of which return `False`. -/
def describe_and_rename_image (zip_get : Except String Unit)
    (markdown_content summary local_path : Option String)
    (git_mv : Except String Unit) : Bool :=
  match describe_body zip_get markdown_content summary local_path git_mv with
  | .ok b => b
  | .error _ => false

/-- Whether an `Except` computation succeeded. -/
def exceptOk : Except String Unit → Bool
  | .ok _ => true
  | .error _ => false

/-- A poll attempt that delivered a response whose state is neither
`"done"` nor `"failed"`. -/
abbrev nonTerminal (a : PollAttempt) : Prop :=
  ∃ s u, a = PollAttempt.response s u ∧ s ≠ some "done" ∧ s ≠ some "failed"

/-! ### Helper lemmas about the poll loop -/

lemma pollFrom_succ (resp : Nat → PollAttempt) (d i n : Nat) :
    pollFrom resp d i (n + 1) =
      match resp i with
      | PollAttempt.response state url =>
        if state = some "done" then ⟨url, 1, d⟩
        else if state = some "failed" then ⟨none, 1, d⟩
        else
          ⟨(pollFrom resp d (i + 1) n).full_zip_url,
           (pollFrom resp d (i + 1) n).attempts + 1,
           (pollFrom resp d (i + 1) n).slept + d⟩
      | _ => ⟨none, 1, d⟩ := by
  simp only [pollFrom]

lemma pollFrom_attempts_le (resp : Nat → PollAttempt) (d : Nat) :
    ∀ n i, (pollFrom resp d i n).attempts ≤ n := by
  intro n
  induction n with
  | zero => intro i; simp [pollFrom]
  | succ m ih =>
    intro i
    simp only [pollFrom]
    rcases h : resp i with ⟨s, u⟩ | e | e | e
    · by_cases hd : s = some "done"
      · simp [hd]
      · by_cases hf : s = some "failed"
        · simp [hd, hf]
        · have := ih (i + 1)
          simp [hd, hf]
          omega
    all_goals simp

lemma pollFrom_slept (resp : Nat → PollAttempt) (d : Nat) :
    ∀ n i, (pollFrom resp d i n).slept = d * (pollFrom resp d i n).attempts := by
  intro n
  induction n with
  | zero => intro i; simp [pollFrom]
  | succ m ih =>
    intro i
    simp only [pollFrom]
    rcases h : resp i with ⟨s, u⟩ | e | e | e
    · by_cases hd : s = some "done"
      · simp [hd]
      · by_cases hf : s = some "failed"
        · simp [hd, hf]
        · have := ih (i + 1)
          simp [hd, hf, Nat.mul_succ]
          omega
    all_goals simp

lemma pollFrom_attempts_pos (resp : Nat → PollAttempt) (d n i : Nat) (hn : 0 < n) :
    1 ≤ (pollFrom resp d i n).attempts := by
  obtain ⟨m, rfl⟩ : ∃ m, n = m + 1 := ⟨n - 1, by omega⟩
  simp only [pollFrom]
  rcases h : resp i with ⟨s, u⟩ | e | e | e
  · by_cases hd : s = some "done"
    · simp [hd]
    · by_cases hf : s = some "failed"
      · simp [hd, hf]
      · simp [hd, hf]
  all_goals simp

lemma pollFrom_nonterminal (resp : Nat → PollAttempt) (d : Nat) :
    ∀ n i, (∀ j, i ≤ j → j < i + n → nonTerminal (resp j)) →
      pollFrom resp d i n = ⟨none, n, d * n⟩ := by
  intro n
  induction n with
  | zero => intro i _; simp [pollFrom]
  | succ m ih =>
    intro i h
    obtain ⟨s, u, hr, hd, hf⟩ := h i (Nat.le_refl i) (by omega)
    simp only [pollFrom, hr, if_neg hd, if_neg hf]
    rw [ih (i + 1) (fun j hj1 hj2 => h j (by omega) (by omega))]
    simp [Nat.mul_succ]

lemma pollFrom_error_at (resp : Nat → PollAttempt) (d : Nat) :
    ∀ k n i, k < n → (∀ j, j < k → nonTerminal (resp (i + j))) →
      isPollError (resp (i + k)) = true →
      pollFrom resp d i n = ⟨none, k + 1, d * (k + 1)⟩ := by
  intro k
  induction k with
  | zero =>
    intro n i hk hpre herr
    obtain ⟨m, rfl⟩ : ∃ m, n = m + 1 := ⟨n - 1, by omega⟩
    rw [Nat.add_zero] at herr
    simp only [pollFrom]
    rcases h : resp i with ⟨s, u⟩ | e | e | e
    · rw [h] at herr; simp [isPollError] at herr
    all_goals simp
  | succ km ih =>
    intro n i hk hpre herr
    obtain ⟨m, rfl⟩ : ∃ m, n = m + 1 := ⟨n - 1, by omega⟩
    obtain ⟨s, u, hr, hd, hf⟩ := by
      have := hpre 0 (by omega)
      rwa [Nat.add_zero] at this
    simp only [pollFrom, hr, if_neg hd, if_neg hf]
    rw [ih m (i + 1) (by omega)
      (fun j hj => by
        have := hpre (j + 1) (by omega)
        rwa [show i + (j + 1) = (i + 1) + j by omega] at this)
      (by rwa [show (i + 1) + km = i + (km + 1) by omega])]
    simp [Nat.mul_succ]

/-! ### Claim theorems -/

/-- C1: `sanitize_filename` maps every string to a string of the same
length, keeping each alphanumeric character and replacing every other
character by an underscore, so its output consists of alphanumeric
characters and underscores only; and `build_new_path` uses exactly this
sanitized value plus the original extension as the new filename component,
never the raw summary. -/
theorem sanitize_filename_spec (s : String) :
    (sanitize_filename s).length = s.length ∧
    (∀ i : Nat, (sanitize_filename s).data[i]? =
      (s.data[i]?).map (fun c => if pyIsAlnum c then c else '_')) ∧
    (∀ c, c ∈ (sanitize_filename s).data → pyIsAlnum c = true ∨ c = '_') ∧
    (∀ local_path, build_new_path local_path s =
      os_path_join (os_path_dirname local_path)
        (sanitize_filename s ++ (splitext (os_path_basename local_path)).2)) := by
  refine ⟨?_, ?_, ?_, fun local_path => rfl⟩
  · cases s with
    | mk data => simp [sanitize_filename, String.length_mk]
  · intro i
    simp [sanitize_filename]
  · intro c hc
    simp only [sanitize_filename, List.mem_map] at hc
    obtain ⟨a, _, ha⟩ := hc
    by_cases h : pyIsAlnum a
    · left; rw [← ha]; simp [h]
    · right; rw [← ha]; simp [h]

/-- C1 witness: instantiation at the summary `"a b!"`. -/
theorem sanitize_filename_spec_witness :
    pyIsAlnum 'a' = true ∨ 'a' = '_' :=
  (sanitize_filename_spec "a b!").2.2.1 'a' (by decide)

/-- C2 counterexample: Python `str.isalnum` is Unicode-aware, so the CJK
summary `"电路图说明"` is left untouched by `sanitize_filename`; the renamed
path is not `images/________.png`. -/
theorem cjk_summary_not_underscored :
    sanitize_filename "电路图说明" ≠ "________" ∧
    build_new_path "images/电路图说明.png" "电路图说明" ≠ "images/________.png" := by
  decide

/-- C2 amended: sanitizing the summary `"电路图说明"` leaves it unchanged
(each CJK ideograph is alphanumeric for Python), so the file
`images/电路图说明.png` is renamed to `images/电路图说明.png`. -/
theorem cjk_summary_kept :
    sanitize_filename "电路图说明" = "电路图说明" ∧
    build_new_path "images/电路图说明.png" "电路图说明" = "images/电路图说明.png" := by
  decide

/-- C3 counterexample: with the three GitHub variables set but
`OPENAI_API_KEY`, `OPENAI_API_BASE`, `MINERU_API_ENDPOINT` and
`MINERU_API_TOKEN` all absent, the startup check does not exit; the
summarizer silently falls back to the defaults `"dummy_key"` and
`"https://free.v36.cm"`. -/
theorem startup_check_counterexample :
    startup_exits_1 ⟨some "tok", some "v1.0", some "owner/repo",
      none, none, none, none⟩ = false ∧
    openai_key_used ⟨some "tok", some "v1.0", some "owner/repo",
      none, none, none, none⟩ = "dummy_key" ∧
    openai_base_used ⟨some "tok", some "v1.0", some "owner/repo",
      none, none, none, none⟩ = "https://free.v36.cm" := by
  decide

/-- C3 amended: exactly `GITHUB_TOKEN`, `GITHUB_REF_NAME` and
`GITHUB_REPOSITORY` are required at startup — the script exits with code 1
iff any of the three is unset or empty; the language-model key and base URL
fall back to built-in defaults when absent, and the extraction-service
variables are not consulted by the startup check at all. -/
theorem startup_required_vars (cfg : EnvConfig) :
    (startup_exits_1 cfg = false ↔
      (pyTruthy cfg.github_token = true ∧ pyTruthy cfg.github_ref_name = true ∧
       pyTruthy cfg.github_repository = true)) ∧
    (cfg.openai_api_key = none → openai_key_used cfg = "dummy_key") ∧
    (cfg.openai_api_base = none → openai_base_used cfg = "https://free.v36.cm") ∧
    (∀ k b e t, startup_exits_1
      { cfg with openai_api_key := k, openai_api_base := b,
                 mineru_api_endpoint := e, mineru_api_token := t } =
      startup_exits_1 cfg) := by
  refine ⟨?_, ?_, ?_, fun k b e t => rfl⟩
  · simp [startup_exits_1, and_assoc]
  · intro h; simp [openai_key_used, h]
  · intro h; simp [openai_base_used, h]

/-- C3 amended witness: instantiation at a concrete configuration. -/
theorem startup_required_vars_witness :
    openai_key_used ⟨some "tok", some "v1.0", some "owner/repo",
      none, none, none, none⟩ = "dummy_key" :=
  (startup_required_vars ⟨some "tok", some "v1.0", some "owner/repo",
      none, none, none, none⟩).2.1 rfl

/-- C4: the push-event collection of line 178 subscripts each entry of
`added`/`modified` with the string key `"filename"`.  GitHub push payloads
deliver those arrays as plain path strings, on which the subscript raises
`TypeError`, so the collection crashes on a well-formed payload; it would
compute the `images/`-restricted union only if every entry were an object
with a `"filename"` field. -/
theorem collect_push_files_type_error :
    collect_push_files [⟨[JsonVal.str "images/a.png"], []⟩] =
      .error "TypeError: string indices must be integers" ∧
    collect_push_files
      [⟨[JsonVal.obj [("filename", JsonVal.str "images/a.png")]],
        [JsonVal.obj [("filename", JsonVal.str "docs/x.md")]]⟩] =
      .ok ["images/a.png"] :=
  ⟨rfl, rfl⟩

/-- C9 counterexample: the malformed URL `https://github.com/OWNER/REPO/blob/BRANCH`
has only four segments (fewer than a well-formed blob URL), yet
`get_local_path_from_github_url` returns `some ""` — the empty string, not
`none` — because `parts[3]` still exists and `"/".join(parts[4:])` is empty. -/
theorem get_local_path_four_segments :
    get_local_path_from_github_url "https://github.com/OWNER/REPO/blob/BRANCH" =
      some "" ∧
    get_local_path_from_github_url "https://github.com/OWNER/REPO/blob/BRANCH" ≠
      none := by
  decide

/-- C9 amended: a well-formed blob URL maps to the repository-relative path;
a URL with at most three segments after stripping the host prefix yields
`none` (the `IndexError` on `parts[1]` or `parts[3]` is caught); a URL with
exactly four segments yields `some ""`, which is also falsy for the caller,
and no input raises. -/
theorem get_local_path_spec :
    (get_local_path_from_github_url
      "https://github.com/OWNER/REPO/blob/BRANCH/images/foo/bar.png" =
      some "images/foo/bar.png") ∧
    (∀ url, (github_url_parts url).length < 4 →
      get_local_path_from_github_url url = none) ∧
    (∀ url, (github_url_parts url).length = 4 →
      get_local_path_from_github_url url = some "") := by
  refine ⟨by decide, ?_, ?_⟩
  · intro url h
    have h3 : (github_url_parts url)[3]? = none := by
      rw [List.getElem?_eq_none_iff]; omega
    simp only [get_local_path_from_github_url, h3]
    rcases h1 : (github_url_parts url)[1]? with _ | v <;> simp
  · intro url h
    obtain ⟨a1, h1⟩ : ∃ a, (github_url_parts url)[1]? = some a :=
      ⟨_, List.getElem?_eq_getElem (by omega)⟩
    obtain ⟨a3, h3⟩ : ∃ a, (github_url_parts url)[3]? = some a :=
      ⟨_, List.getElem?_eq_getElem (by omega)⟩
    have hdrop : (github_url_parts url).drop 4 = [] := by
      rw [List.drop_eq_nil_iff]; omega
    simp only [get_local_path_from_github_url, h1, h3, hdrop]
    rfl

/-- C9 amended witness: instantiation at concrete malformed URLs. -/
theorem get_local_path_spec_witness :
    get_local_path_from_github_url "x" = none ∧
    get_local_path_from_github_url "https://github.com/a/b/c/d" = some "" :=
  ⟨get_local_path_spec.2.1 "x" (by decide),
   get_local_path_spec.2.2 "https://github.com/a/b/c/d" (by decide)⟩

/-- C5: the poll loop performs at most 20 attempts, sleeps exactly 5
seconds per attempt performed, and when every attempt delivers a
non-terminal state it runs all 20 attempts and ends with no bundle
location, having slept 100 seconds. -/
theorem poll_loop_bounded (resp : Nat → PollAttempt) :
    (poll_loop resp).attempts ≤ 20 ∧
    (poll_loop resp).slept = 5 * (poll_loop resp).attempts ∧
    ((∀ i, i < 20 → nonTerminal (resp i)) →
      poll_loop resp = ⟨none, 20, 100⟩) := by
  refine ⟨pollFrom_attempts_le resp 5 20 0, pollFrom_slept resp 5 20 0, ?_⟩
  intro h
  have := pollFrom_nonterminal resp 5 20 0 (fun j _ hj => h j (by omega))
  simpa using this

/-- C5 witness: a response sequence that always reports a pending state. -/
theorem poll_loop_bounded_witness :
    poll_loop (fun _ => PollAttempt.response (some "pending") none) =
      ⟨none, 20, 100⟩ :=
  (poll_loop_bounded (fun _ => PollAttempt.response (some "pending") none)).2.2
    (fun _ _ => ⟨some "pending", none, rfl, by decide, by decide⟩)

/-- C6: a first attempt reporting `"done"` makes the loop return that
attempt's `full_zip_url` after exactly one attempt; a first attempt
reporting `"failed"` makes it return no bundle location after exactly one
attempt; any other reported state makes it continue to a second attempt. -/
theorem poll_loop_first_attempt (resp : Nat → PollAttempt) :
    (∀ u, resp 0 = PollAttempt.response (some "done") u →
      poll_loop resp = ⟨u, 1, 5⟩) ∧
    (∀ u, resp 0 = PollAttempt.response (some "failed") u →
      poll_loop resp = ⟨none, 1, 5⟩) ∧
    (∀ s u, resp 0 = PollAttempt.response s u → s ≠ some "done" →
      s ≠ some "failed" → 2 ≤ (poll_loop resp).attempts) := by
  rw [show poll_loop resp = pollFrom resp 5 0 (19 + 1) from rfl,
      pollFrom_succ]
  refine ⟨?_, ?_, ?_⟩
  · intro u h
    rw [h]
    simp
  · intro u h
    rw [h]
    simp
  · intro s u h hd hf
    rw [h]
    simp only [if_neg hd, if_neg hf]
    exact Nat.succ_le_succ (pollFrom_attempts_pos resp 5 19 1 (by omega))

/-- C6 witness: instantiations at sequences whose first attempt reports
`"done"`, `"failed"`, and `"running"` respectively. -/
theorem poll_loop_first_attempt_witness :
    poll_loop (fun _ => PollAttempt.response (some "done") (some "https://z/out.zip")) =
      ⟨some "https://z/out.zip", 1, 5⟩ ∧
    poll_loop (fun _ => PollAttempt.response (some "failed") none) = ⟨none, 1, 5⟩ ∧
    2 ≤ (poll_loop (fun _ => PollAttempt.response (some "running") none)).attempts :=
  ⟨(poll_loop_first_attempt _).1 (some "https://z/out.zip") rfl,
   (poll_loop_first_attempt _).2.1 none rfl,
   (poll_loop_first_attempt _).2.2 (some "running") none rfl (by decide) (by decide)⟩

/-- C7: if the attempts before attempt `k` all deliver non-terminal states
and attempt `k` raises (a transport, JSON or other error), the loop stops
right there with no bundle location, and the driver then skips the file
(`if not full_zip_url: continue`) instead of crashing. -/
theorem poll_loop_error_stops (resp : Nat → PollAttempt) (k : Nat) (hk : k < 20)
    (hpre : ∀ j, j < k → nonTerminal (resp j))
    (herr : isPollError (resp k) = true) :
    poll_loop resp = ⟨none, k + 1, 5 * (k + 1)⟩ ∧
    driver_skips_file (poll_loop resp).full_zip_url = true := by
  have h := pollFrom_error_at resp 5 k 20 0 hk
    (fun j hj => by simpa using hpre j hj) (by simpa using herr)
  refine ⟨h, ?_⟩
  rw [show poll_loop resp = pollFrom resp 5 0 20 from rfl, h]
  rfl

/-- C7 witness: a transport error on the very first attempt. -/
theorem poll_loop_error_stops_witness :
    poll_loop (fun _ => PollAttempt.requestException "connection reset") =
      ⟨none, 1, 5⟩ ∧
    driver_skips_file
      (poll_loop (fun _ => PollAttempt.requestException "connection reset")).full_zip_url =
      true :=
  poll_loop_error_stops (fun _ => PollAttempt.requestException "connection reset")
    0 (by decide) (fun j hj => absurd hj (by omega)) rfl

/-- C8: the driver's failure handling is asymmetric — a failed task
submission or a missing bundle location skips the file and the batch
continues, while a rename failure or a commit/push failure ends the run
with exit code 1. -/
theorem driver_failure_asymmetry (full_zip_url : Option String)
    (rename_ok commit_push_ok : Bool) :
    (process_file false full_zip_url rename_ok commit_push_ok = .skipped) ∧
    (process_file true none rename_ok commit_push_ok = .skipped) ∧
    (pyTruthy full_zip_url = true →
      process_file true full_zip_url false commit_push_ok = .fatalExit1) ∧
    (pyTruthy full_zip_url = true →
      process_file true full_zip_url true false = .fatalExit1) ∧
    (pyTruthy full_zip_url = true →
      process_file true full_zip_url true true = .committed) := by
  refine ⟨rfl, rfl, ?_, ?_, ?_⟩ <;>
    intro h <;> simp [process_file, driver_skips_file, h]

/-- C8 witness: instantiation at a truthy bundle location. -/
theorem driver_failure_asymmetry_witness :
    process_file true (some "https://z/out.zip") false true =
      FileOutcome.fatalExit1 :=
  (driver_failure_asymmetry (some "https://z/out.zip") false true).2.2.1 (by decide)

/-- C10: `describe_and_rename_image` is total at its public interface — its
result is the boolean conjunction of its stages' successes, so a raised
download error, a missing markdown, a missing summary, an unparseable URL or
a raised rename error each yield `false`, and no exception escapes. -/
theorem describe_and_rename_image_total (zip_get git_mv : Except String Unit)
    (markdown_content summary local_path : Option String) :
    describe_and_rename_image zip_get markdown_content summary local_path git_mv =
      (exceptOk zip_get && pyTruthy markdown_content && pyTruthy summary &&
       pyTruthy local_path && exceptOk git_mv) := by
  cases zip_get <;> cases git_mv <;>
    cases hm : pyTruthy markdown_content <;>
    cases hs : pyTruthy summary <;>
    cases hl : pyTruthy local_path <;>
    simp_all [describe_and_rename_image, describe_body, exceptOk, Except.bind]

end RenameImages
